import Mathlib

/-!
Verification of the livekit voice-agent repository (agent.py, agent1.py,
sip-config/sip_manager.py) against its natural-language specification.

The Python sources are shallowly embedded in Lean:

* JSON payloads and Python values are modelled by the inductive type `JVal`;
  Python operations that can raise (`[]` indexing, `.get`, `len`, `in`,
  `float`) are modelled in the `Except PyErr` monad, mirroring the exact
  branch structure of the source.
* Machine floats of the resampler are modelled by exact rationals; Python
  `int(x)` (truncation toward zero) is `ratTrunc`, and Python floor
  division `//` is `Int.fdiv`.
* File and network input/output are modelled by passing the data that the
  source would read (HTTP outcomes, decoded WAV sample sequences) as
  explicit arguments, and returning the data that the source would write.
-/

/-- A single-quote character, used to build the string literals of the
source without embedding quote characters in Lean string literals. -/
def sqc : String := String.singleton (Char.ofNat 39)

/-- Character-list test: `pre` is an initial segment of `l`. -/
def charsStartWith : List Char → List Char → Bool
  | [], _ => true
  | _ :: _, [] => false
  | a :: pre, b :: l => a == b && charsStartWith pre l

/-- Character-list test: `needle` occurs contiguously inside `hay`. -/
def charsContain (hay needle : List Char) : Bool :=
  if charsStartWith needle hay then true
  else
    match hay with
    | [] => false
    | _ :: t => charsContain t needle

/-- Substring test on strings (Python `needle in hay`). -/
def strContains (hay needle : String) : Bool :=
  charsContain hay.toList needle.toList

/-- Python exception kinds that the embedded code can raise. -/
inductive PyErr where
  | typeError
  | keyError
  | indexError
  | valueError
  | attributeError
  | connectionError
  | contentTypeError
deriving DecidableEq, Repr

/-- Model of a Python/JSON value as manipulated by the source. -/
inductive JVal where
  | jnull
  | jbool (b : Bool)
  | jnum (q : ℚ)
  | jstr (s : String)
  | jarr (items : List JVal)
  | jobj (fields : List (String × JVal))

/-- Python truthiness of a JSON value. -/
def pyTruthy : JVal → Bool
  | .jnull => false
  | .jbool b => b
  | .jnum q => !(q == 0)
  | .jstr s => !(s == "")
  | .jarr l => !l.isEmpty
  | .jobj l => !l.isEmpty

/-- Key lookup in a JSON object; with duplicate keys the last wins,
as in Python dict construction. -/
def lookupField (fields : List (String × JVal)) (k : String) : Option JVal :=
  (fields.reverse.find? (fun p => p.1 == k)).map (·.2)

/-- Python `v[i]` for a non-negative integer index `i`. -/
def pyGetIdx (v : JVal) (i : Nat) : Except PyErr JVal :=
  match v with
  | .jarr l =>
    match l[i]? with
    | some x => .ok x
    | none => .error .indexError
  | .jstr s =>
    match s.toList[i]? with
    | some c => .ok (.jstr (String.singleton c))
    | none => .error .indexError
  | .jobj _ => .error .keyError
  | _ => .error .typeError

/-- Python `v[k]` for a string key `k`. -/
def pyGetKey (v : JVal) (k : String) : Except PyErr JVal :=
  match v with
  | .jobj fields =>
    match lookupField fields k with
    | some x => .ok x
    | none => .error .keyError
  | _ => .error .typeError

/-- Python `v.get(k, dflt)`; raises AttributeError when `v` is not a dict. -/
def pyDictGet (v : JVal) (k : String) (dflt : JVal) : Except PyErr JVal :=
  match v with
  | .jobj fields => .ok ((lookupField fields k).getD dflt)
  | _ => .error .attributeError

/-- Python `len(v)`. -/
def pyLen (v : JVal) : Except PyErr Nat :=
  match v with
  | .jarr l => .ok l.length
  | .jstr s => .ok s.length
  | .jobj l => .ok l.length
  | _ => .error .typeError

/-- Python `k in v` for a string `k`: dict key membership, list element
membership (a string compares equal only to an equal string), or substring
test; raises TypeError otherwise. -/
def pyIn (k : String) (v : JVal) : Except PyErr Bool :=
  match v with
  | .jobj fields => .ok (fields.any (fun p => p.1 == k))
  | .jarr items =>
    .ok (items.any (fun x => match x with | .jstr s => s == k | _ => false))
  | .jstr s => .ok (strContains s k)
  | _ => .error .typeError

/-- Value of a list of decimal digit characters. -/
def digitsVal : List Char → Option Nat
  | [] => none
  | l => l.foldlM (fun acc c => if c.isDigit then some (acc * 10 + (c.toNat - 48)) else none) 0

/-- Parse a plain decimal literal (optional sign, digits, optional
fractional part) into a rational, as Python `float(str)` does for the
payload shapes this program meets; other forms raise ValueError. -/
def parseDecimal (s : String) : Except PyErr ℚ :=
  let t := s.trim.toList
  let (sign, t) : ℚ × List Char :=
    match t with
    | '-' :: r => (-1, r)
    | '+' :: r => (1, r)
    | r => (1, r)
  let intPart := t.takeWhile (fun c => c.isDigit)
  let rest := t.drop intPart.length
  match rest with
  | [] =>
    match digitsVal intPart with
    | some n => .ok (sign * n)
    | none => .error .valueError
  | '.' :: fracDigits =>
    if fracDigits.all (fun c => c.isDigit) && !(intPart.isEmpty && fracDigits.isEmpty) then
      let ip := (digitsVal intPart).getD 0
      let fp := (digitsVal fracDigits).getD 0
      .ok (sign * ((ip : ℚ) + (fp : ℚ) / ((10 : ℚ) ^ fracDigits.length)))
    else .error .valueError
  | _ => .error .valueError

/-- Python `float(v)`. -/
def pyFloat (v : JVal) : Except PyErr ℚ :=
  match v with
  | .jnum q => .ok q
  | .jbool b => .ok (if b then 1 else 0)
  | .jstr s => parseDecimal s
  | _ => .error .typeError

/-- Rendering of a rational in Python string interpolation; integral
values render as Python integers do, non-integral numerals are rendered
as a fraction (the digits differ from Python float formatting, which no
claim depends on). -/
def ratRender (q : ℚ) : String :=
  if q.den == 1 then toString q.num else toString q.num ++ "/" ++ toString q.den

/-- Python `str(v)` as used in f-string interpolation; container
rendering is abbreviated (no claim depends on it). -/
def pyStrOf : JVal → String
  | .jnull => "None"
  | .jbool b => if b then "True" else "False"
  | .jnum q => ratRender q
  | .jstr s => s
  | .jarr _ => "[...]"
  | .jobj _ => "\x7b...\x7d"

/-!
Weather Query Service (src/agent.py lines 139-302; src/agent1.py holds an
identical copy). HTTP calls are modelled by passing the outcome of the
request as an argument.
-/

/-- Outcome of an aiohttp GET: a connection failure (which raises), or a
response with a status code and a body; `body = none` models a payload on
which `response.json()` raises. -/
inductive HttpOutcome where
  | connError
  | response (status : Nat) (body : Option JVal)

/-- Result of geocoding: latitude, longitude and the raw display name
value of the first result, as stored in the dict built by the source. -/
structure GeoData where
  lat : ℚ
  lon : ℚ
  display_name : JVal

/-- Embedding of `geocode_location` (src/agent.py lines 168-190). The
`resp` argument is the outcome of the Nominatim GET request. -/
def geocode_location (resp : HttpOutcome) : Except PyErr (Option GeoData) :=
  match resp with
  | .connError => .error .connectionError
  | .response status body =>
    if status == 200 then
      match body with
      | none => .error .contentTypeError
      | some data =>
        if pyTruthy data then do
          let e0 ← pyGetIdx data 0
          let lat ← pyFloat (← pyGetKey e0 "lat")
          let lon ← pyFloat (← pyGetKey e0 "lon")
          let dn ← pyGetKey e0 "display_name"
          pure (some ⟨lat, lon, dn⟩)
        else pure none
    else pure none

/-- Embedding of `get_weather_data` (src/agent.py lines 193-209). The
`resp` argument is the outcome of the Open-Meteo GET request. -/
def get_weather_data (resp : HttpOutcome) : Except PyErr (Option JVal) :=
  match resp with
  | .connError => .error .connectionError
  | .response status body =>
    if status == 200 then
      match body with
      | none => .error .contentTypeError
      | some data => pure (some data)
    else pure none

/-- The 24-entry `WEATHER_CODES` table (src/agent.py lines 140-165). -/
def weatherCodeDescr (n : Int) : Option String :=
  if n = 0 then some "clear sky"
  else if n = 1 then some "mainly clear"
  else if n = 2 then some "partly cloudy"
  else if n = 3 then some "overcast"
  else if n = 45 then some "foggy"
  else if n = 48 then some "depositing rime fog"
  else if n = 51 then some "light drizzle"
  else if n = 53 then some "moderate drizzle"
  else if n = 55 then some "dense drizzle"
  else if n = 61 then some "slight rain"
  else if n = 63 then some "moderate rain"
  else if n = 65 then some "heavy rain"
  else if n = 71 then some "slight snow"
  else if n = 73 then some "moderate snow"
  else if n = 75 then some "heavy snow"
  else if n = 77 then some "snow grains"
  else if n = 80 then some "slight rain showers"
  else if n = 81 then some "moderate rain showers"
  else if n = 82 then some "violent rain showers"
  else if n = 85 then some "slight snow showers"
  else if n = 86 then some "heavy snow showers"
  else if n = 95 then some "thunderstorm"
  else if n = 96 then some "thunderstorm with slight hail"
  else if n = 99 then some "thunderstorm with heavy hail"
  else none

/-- Table lookup for a numeric key: a Python dict keyed by ints matches a
numerically equal float, and misses otherwise. -/
def weatherCodeNumDescr (q : ℚ) (dflt : String) : String :=
  if q.den == 1 then (weatherCodeDescr q.num).getD dflt else dflt

/-- Embedding of `WEATHER_CODES.get(v, dflt)`: unhashable keys (lists,
dicts) raise TypeError; `True`/`False` hash as 1/0; other values miss. -/
def weatherCodesGet (v : JVal) (dflt : String) : Except PyErr String :=
  match v with
  | .jarr _ => .error .typeError
  | .jobj _ => .error .typeError
  | .jnum q => .ok (weatherCodeNumDescr q dflt)
  | .jbool b => .ok (weatherCodeNumDescr (if b then 1 else 0) dflt)
  | _ => .ok dflt

/-- The forecast clause f-string of `get_weather` (src/agent.py line 294). -/
def forecastClause (hi lo cond precip : String) : String :=
  " Tomorrow" ++ sqc ++ "s forecast: high of " ++ hi ++ " degrees, low of " ++ lo
    ++ " degrees, " ++ cond ++ ", " ++ precip ++ "% chance of precipitation."

/-- The forecast-parsing block of `get_weather` (src/agent.py lines
283-294), parameterised by the `daily` dict it reads. -/
def forecastInfo (daily : JVal) : Except PyErr String := do
  if pyTruthy daily then do
    let hasTime ← pyIn "time" daily
    if hasTime then do
      let temps_max ← pyDictGet daily "temperature_2m_max" (.jarr [])
      let temps_min ← pyDictGet daily "temperature_2m_min" (.jarr [])
      let precip_prob ← pyDictGet daily "precipitation_probability_max" (.jarr [])
      let daily_codes ← pyDictGet daily "weather_code" (.jarr [])
      let nmax ← pyLen temps_max
      if 2 ≤ nmax then do
        let ncodes ← pyLen daily_codes
        let codeArg ← if 1 < ncodes then pyGetIdx daily_codes 1 else pure (JVal.jnum 0)
        let tomorrow_conditions ← weatherCodesGet codeArg "unknown"
        let nprecip ← pyLen precip_prob
        let tomorrow_precip ← if 1 < nprecip then pyGetIdx precip_prob 1 else pure (JVal.jnum 0)
        let hi ← pyGetIdx temps_max 1
        let lo ← pyGetIdx temps_min 1
        pure (forecastClause (pyStrOf hi) (pyStrOf lo) tomorrow_conditions (pyStrOf tomorrow_precip))
      else pure ""
    else pure ""
  else pure ""

/-- Python `s.split(",")` as a structural fold over the characters
(the result is never empty). -/
def splitCommaChars (l : List Char) : List String :=
  l.foldr (fun ch acc =>
    match acc with
    | [] => [String.singleton ch]
    | seg :: rest =>
      if ch = ',' then "" :: seg :: rest else (String.singleton ch ++ seg) :: rest) [""]

/-- First comma-delimited segment of a string, Python `s.split(",")[0]`. -/
def pySplitFirst (s : String) : String :=
  (splitCommaChars s.toList).headD ""

/-- Python `v.split(",")[0]`; raises AttributeError when `v` is not a
string. -/
def pySplitHeadComma (v : JVal) : Except PyErr String :=
  match v with
  | .jstr s => .ok (pySplitFirst s)
  | _ => .error .attributeError

/-- The final sentence f-string of `get_weather` (src/agent.py lines
299-302). -/
def weatherSentence (shortLoc temp feels cond humidity wind forecast : String) : String :=
  "Current weather in " ++ shortLoc ++ ": " ++ temp ++ " degrees Celsius, feels like "
    ++ feels ++ " degrees. Conditions: " ++ cond ++ ". Humidity: " ++ humidity
    ++ "%. Wind speed: " ++ wind ++ " kilometers per hour." ++ forecast

/-- The geocoder-failure apology of `get_weather` (src/agent.py line 264). -/
def apology_not_found (location : String) : String :=
  "Sorry, I couldn" ++ sqc ++ "t find the location " ++ sqc ++ location ++ sqc
    ++ ". Please try a different city or place name."

/-- The weather-failure apology of `get_weather` (src/agent.py line 270). -/
def apology_no_weather (location : String) : String :=
  "Sorry, I couldn" ++ sqc ++ "t fetch weather data for " ++ location
    ++ ". Please try again later."

/-- Embedding of `Assistant.get_weather` (src/agent.py lines 251-302).
The two HTTP outcomes stand for the Nominatim and Open-Meteo requests the
source performs. -/
def get_weather (location : String) (geoResp weatherResp : HttpOutcome) :
    Except PyErr String := do
  let geo_data ← geocode_location geoResp
  match geo_data with
  | none => pure (apology_not_found location)
  | some geo => do
    let weather_data ← get_weather_data weatherResp
    match weather_data with
    | none => pure (apology_no_weather location)
    | some wd =>
      if !(pyTruthy wd) then pure (apology_no_weather location)
      else do
        let current ← pyDictGet wd "current" (.jobj [])
        let daily ← pyDictGet wd "daily" (.jobj [])
        let temp ← pyDictGet current "temperature_2m" (.jstr "N/A")
        let feels_like ← pyDictGet current "apparent_temperature" (.jstr "N/A")
        let humidity ← pyDictGet current "relative_humidity_2m" (.jstr "N/A")
        let wind_speed ← pyDictGet current "wind_speed_10m" (.jstr "N/A")
        let weather_code ← pyDictGet current "weather_code" (.jnum 0)
        let conditions ← weatherCodesGet weather_code "unknown conditions"
        let forecast_info ← forecastInfo daily
        let short_location ← pySplitHeadComma (GeoData.display_name geo)
        pure (weatherSentence short_location (pyStrOf temp) (pyStrOf feels_like)
          conditions (pyStrOf humidity) (pyStrOf wind_speed) forecast_info)

/-!
Conversation Transcript Recorder (src/agent.py lines 78-136; src/agent1.py
lines 154-212 hold an identical copy). Wall-clock timestamps are passed in
as opaque strings.
-/

/-- One transcript entry, as appended by the source. -/
structure Message where
  role : String
  text : String
  timestamp : String
  language : Option String
deriving DecidableEq, Repr

/-- State of a `ConversationRecorder`; the file path plays no role in the
claims and is omitted. -/
structure ConversationRecorder where
  transcript : List Message
  is_recording : Bool
deriving DecidableEq, Repr

/-- Embedding of `ConversationRecorder.start`. -/
def ConversationRecorder.start (r : ConversationRecorder) : ConversationRecorder :=
  { r with is_recording := true, transcript := [] }

/-- Embedding of `ConversationRecorder.add_user_message` (src/agent.py
lines 94-102); `now` is the wall-clock timestamp. -/
def ConversationRecorder.add_user_message (r : ConversationRecorder)
    (text : String) (language : String) (now : String) : ConversationRecorder :=
  if r.is_recording && !(text.trim == "") then
    { r with transcript := r.transcript ++ [⟨"user", text, now, some language⟩] }
  else r

/-- Embedding of `ConversationRecorder.add_agent_message` (src/agent.py
lines 104-111). -/
def ConversationRecorder.add_agent_message (r : ConversationRecorder)
    (text : String) (now : String) : ConversationRecorder :=
  if r.is_recording && !(text.trim == "") then
    { r with transcript := r.transcript ++ [⟨"assistant", text, now, none⟩] }
  else r

/-- Embedding of `ConversationRecorder.stop` (src/agent.py lines 113-136):
marks inactive and returns the messages written to the JSON file, or
`none` when the transcript is empty and no file is written. -/
def ConversationRecorder.stop (r : ConversationRecorder) :
    ConversationRecorder × Option (List Message) :=
  let r2 := { r with is_recording := false }
  if r.transcript.isEmpty then (r2, none) else (r2, some r.transcript)

/-- One call to the transcript recorder, with its wall-clock timestamp. -/
inductive TranscriptOp where
  | user (text language now : String)
  | agent (text now : String)

/-- The text carried by a transcript call. -/
def TranscriptOp.text : TranscriptOp → String
  | .user t _ _ => t
  | .agent t _ => t

/-- The entry a transcript call appends when accepted. -/
def TranscriptOp.toMessage : TranscriptOp → Message
  | .user t lang now => ⟨"user", t, now, some lang⟩
  | .agent t now => ⟨"assistant", t, now, none⟩

/-- Apply one recorder call. -/
def applyTranscriptOp (r : ConversationRecorder) : TranscriptOp → ConversationRecorder
  | .user t lang now => r.add_user_message t lang now
  | .agent t now => r.add_agent_message t now

/-- Apply a sequence of recorder calls in order. -/
def runTranscriptOps (r : ConversationRecorder) (ops : List TranscriptOp) :
    ConversationRecorder :=
  ops.foldl applyTranscriptOp r

/-!
Unified Audio Capture Recorder, Variant A (src/agent.py lines 25-75).
Frames are byte sequences; the lock only orders concurrent accesses and
has no effect on the sequential semantics embedded here.
-/

/-- The WAV file written by a recorder: format parameters plus raw PCM
payload bytes. -/
structure WavFile where
  nchannels : Nat
  sampwidth : Nat
  framerate : Nat
  data : List Nat
deriving DecidableEq, Repr

/-- State of a `LocalAudioRecorder` (the file path is omitted). -/
structure LocalAudioRecorder where
  sample_rate : Nat
  num_channels : Nat
  frames : List (List Nat)
  is_recording : Bool
deriving DecidableEq, Repr

/-- Embedding of the `LocalAudioRecorder` constructor: rate 48000 and one
channel are the defaults and are what `my_agent` passes. -/
def LocalAudioRecorder.make (sample_rate : Nat := 48000) (num_channels : Nat := 1) :
    LocalAudioRecorder :=
  ⟨sample_rate, num_channels, [], false⟩

/-- Embedding of `LocalAudioRecorder.start`. -/
def LocalAudioRecorder.start (r : LocalAudioRecorder) : LocalAudioRecorder :=
  { r with is_recording := true, frames := [] }

/-- Embedding of `LocalAudioRecorder.add_frame` (src/agent.py lines
42-47); `none` models a `None` frame, which the truthiness guard drops. -/
def LocalAudioRecorder.add_frame (r : LocalAudioRecorder) (frame : Option (List Nat)) :
    LocalAudioRecorder :=
  if r.is_recording && frame.isSome then
    { r with frames := r.frames ++ [frame.getD []] }
  else r

/-- Embedding of `LocalAudioRecorder.stop` (src/agent.py lines 49-75):
marks inactive; with an empty buffer no file is written; otherwise
returns the WAV file written and the duration the source logs,
`totalBytes / (rate * channels * 2)` seconds. -/
def LocalAudioRecorder.stop (r : LocalAudioRecorder) :
    LocalAudioRecorder × Option (WavFile × ℚ) :=
  let r2 := { r with is_recording := false }
  if r.frames.isEmpty then (r2, none)
  else
    let audio_data := r.frames.flatten
    (r2, some (⟨r.num_channels, 2, r.sample_rate, audio_data⟩,
      (audio_data.length : ℚ) / ((r.sample_rate : ℚ) * (r.num_channels : ℚ) * 2)))

/-!
Shutdown callback of Variant A (src/agent.py lines 414-424): the
module-level recorder references are stopped and cleared.
-/

/-- The module-level recorder references of src/agent.py. -/
structure AgentGlobals where
  conversation_recorder : Option ConversationRecorder
  audio_recorder : Option LocalAudioRecorder

/-- Observable effect of one shutdown invocation: a recorder was stopped,
carrying what its `stop` wrote. -/
inductive ShutdownEffect where
  | transcriptStopped (written : Option (List Message))
  | audioStopped (written : Option (WavFile × ℚ))

/-- Embedding of `on_shutdown` (src/agent.py lines 415-422): stop and
clear each non-`None` recorder reference, in source order. -/
def on_shutdown (g : AgentGlobals) : AgentGlobals × List ShutdownEffect :=
  let (cr, e1) : Option ConversationRecorder × List ShutdownEffect :=
    match g.conversation_recorder with
    | none => (none, [])
    | some r => (none, [.transcriptStopped (r.stop).2])
  let (ar, e2) : Option LocalAudioRecorder × List ShutdownEffect :=
    match g.audio_recorder with
    | none => (none, [])
    | some r => (none, [.audioStopped (r.stop).2])
  (⟨cr, ar⟩, e1 ++ e2)

/-- Iterate the shutdown callback, collecting each invocation's effects. -/
def runShutdowns : Nat → AgentGlobals → AgentGlobals × List (List ShutdownEffect)
  | 0, g => (g, [])
  | n + 1, g =>
    let (g1, e) := on_shutdown g
    let (g2, es) := runShutdowns n g1
    (g2, e :: es)

/-!
Split-channel mixdown, Variant B (src/agent1.py lines 78-151). The WAV
reads and the 16-bit unpack/pack are abstracted to the decoded
little-endian signed 16-bit sample sequences; float arithmetic is
modelled exactly over the rationals.
-/

/-- Python `int(q)`: truncation toward zero. -/
def ratTrunc (q : ℚ) : Int := q.num.tdiv q.den

/-- Embedding of the inner `resample` (src/agent1.py lines 104-118).
For an empty input the loop body is never reached, so the `samples[-1]`
and `samples[idx]` accesses are modelled with a default of `0`. -/
def resample (samples : List Int) (from_rate to_rate : Nat) : List Int :=
  if from_rate == to_rate then samples
  else
    let ratio : ℚ := (to_rate : ℚ) / (from_rate : ℚ)
    let new_length : Nat := (ratTrunc ((samples.length : ℚ) * ratio)).toNat
    (List.range new_length).map (fun (i : Nat) =>
      let src_idx : ℚ := (i : ℚ) / ratio
      let idx : Int := ratTrunc src_idx
      if (samples.length : Int) - 1 ≤ idx then (samples.getLast?).getD 0
      else
        let frac : ℚ := src_idx - (idx : ℚ)
        ratTrunc (((samples.getD idx.toNat 0 : Int) : ℚ) * (1 - frac)
          + ((samples.getD (idx.toNat + 1) 0 : Int) : ℚ) * frac))

/-- The clamp of the mix loop (src/agent1.py line 132). -/
def clamp16 (x : Int) : Int := max (-32768) (min 32767 x)

/-- Mono 16-bit WAV output at the sample level. -/
structure WavSamples where
  nchannels : Nat
  sampwidth : Nat
  framerate : Nat
  samples : List Int
deriving DecidableEq, Repr

/-- Embedding of `combine_audio_files` (src/agent1.py lines 78-151) from
the decoded sample sequences and frame rates of the two input files to
the WAV written and the duration logged. Python `//` is floor division,
`Int.fdiv`. -/
def combine_audio_files (user_rate : Nat) (user_samples : List Int)
    (agent_rate : Nat) (agent_samples : List Int) : WavSamples × ℚ :=
  let target_sample_rate := max user_rate agent_rate
  let user1 := resample user_samples user_rate target_sample_rate
  let agent1 := resample agent_samples agent_rate target_sample_rate
  let max_length := max user1.length agent1.length
  let user2 := user1 ++ List.replicate (max_length - user1.length) 0
  let agent2 := agent1 ++ List.replicate (max_length - agent1.length) 0
  let mixed := (user2.zip agent2).map (fun p => clamp16 ((p.1 + p.2).fdiv 2))
  (⟨1, 2, target_sample_rate, mixed⟩, (mixed.length : ℚ) / (target_sample_rate : ℚ))

/-!
SIP Trunk & Dispatch Rule Provisioning CLI
(src/sip-config/sip_manager.py). The control-plane API is modelled by an
oracle mapping the index of each issued call to its outcome; every
operation is a program in the `SipM` monad, which records the trace of
client opens, control-plane requests, prints and client closes, and in
which a raised error aborts the rest of the program (no handler exists in
the source).
-/

/-- An inbound trunk as carried by requests and replies. -/
structure InboundTrunkInfo where
  sip_trunk_id : String
  name : String
  numbers : List String
  allowed_addresses : List String
deriving DecidableEq, Repr

/-- An outbound trunk as carried by requests and replies. -/
structure OutboundTrunkInfo where
  sip_trunk_id : String
  name : String
  address : String
  numbers : List String
  auth_username : String
  auth_password : String
deriving DecidableEq, Repr

/-- A dispatch rule as carried by requests and replies; `roomPref` is the
room prefix of the individual dispatch rule. -/
structure DispatchRuleInfo where
  sip_dispatch_rule_id : String
  name : String
  trunk_ids : List String
  roomPref : String
deriving DecidableEq, Repr

/-- A request issued to the telephony control plane. -/
inductive SipRequest where
  | listInbound
  | listOutbound
  | listRules
  | createInbound (name : String) (numbers : List String) (allowed_addresses : List String)
  | createOutbound (name : String) (address : String) (numbers : List String)
      (auth_username : String) (auth_password : String)
  | createRule (name : String) (trunk_ids : List String) (roomPref : String)
  | deleteTrunk (sip_trunk_id : String)
  | deleteRule (sip_dispatch_rule_id : String)
deriving DecidableEq, Repr

/-- A reply from the telephony control plane. -/
inductive SipReply where
  | inboundTrunks (items : List InboundTrunkInfo)
  | outboundTrunks (items : List OutboundTrunkInfo)
  | dispatchRules (items : List DispatchRuleInfo)
  | inboundTrunk (t : InboundTrunkInfo)
  | outboundTrunk (t : OutboundTrunkInfo)
  | dispatchRule (r : DispatchRuleInfo)
  | deleted
deriving DecidableEq, Repr

/-- One observable step of a CLI operation. -/
inductive SipEvent where
  | openClient
  | request (r : SipRequest)
  | closeClient
  | printLine (s : String)
deriving DecidableEq, Repr

/-- Outcome oracle: result of the n-th control-plane call issued by the
process (an `error` models the awaited call raising). -/
def SipEnv : Type := Nat → Except PyErr SipReply

/-- Trace state: number of control-plane calls issued so far, and the
events so far. -/
structure SipSt where
  ncalls : Nat
  trace : List SipEvent
deriving Repr

/-- The CLI monad: environment plus trace state plus short-circuiting
errors. -/
def SipM (α : Type) : Type := SipEnv → SipSt → SipSt × Except PyErr α

instance : Monad SipM where
  pure a := fun _ s => (s, .ok a)
  bind m f := fun env s =>
    match m env s with
    | (s1, .ok a) => f a env s1
    | (s1, .error e) => (s1, .error e)

/-- Record an event. -/
def emit (e : SipEvent) : SipM Unit :=
  fun _ s => ({ s with trace := s.trace ++ [e] }, .ok ())

/-- Issue a control-plane call: the request is recorded, then the oracle
decides whether the awaited call returns or raises. -/
def sipCall (r : SipRequest) : SipM SipReply :=
  fun env s => (⟨s.ncalls + 1, s.trace ++ [.request r]⟩, env s.ncalls)

/-- Project an inbound-trunk reply (the real client is typed, so a
mismatching oracle counts as a raised error). -/
def expectInbound (r : SipReply) : SipM InboundTrunkInfo :=
  match r with
  | .inboundTrunk t => pure t
  | _ => fun _ s => (s, .error .typeError)

/-- Project an outbound-trunk reply. -/
def expectOutbound (r : SipReply) : SipM OutboundTrunkInfo :=
  match r with
  | .outboundTrunk t => pure t
  | _ => fun _ s => (s, .error .typeError)

/-- Project a dispatch-rule reply. -/
def expectRule (r : SipReply) : SipM DispatchRuleInfo :=
  match r with
  | .dispatchRule t => pure t
  | _ => fun _ s => (s, .error .typeError)

/-- Project an inbound-trunk-list reply. -/
def expectInboundList (r : SipReply) : SipM (List InboundTrunkInfo) :=
  match r with
  | .inboundTrunks ts => pure ts
  | _ => fun _ s => (s, .error .typeError)

/-- Project an outbound-trunk-list reply. -/
def expectOutboundList (r : SipReply) : SipM (List OutboundTrunkInfo) :=
  match r with
  | .outboundTrunks ts => pure ts
  | _ => fun _ s => (s, .error .typeError)

/-- Project a dispatch-rule-list reply. -/
def expectRuleList (r : SipReply) : SipM (List DispatchRuleInfo) :=
  match r with
  | .dispatchRules ts => pure ts
  | _ => fun _ s => (s, .error .typeError)

/-- Print the per-trunk lines of the inbound loop of `list_sip_trunks`
(the for-loop is embedded as recursion over the items). -/
def printInboundTrunks : List InboundTrunkInfo → SipM Unit
  | [] => pure ()
  | t :: ts => do
    emit (.printLine ("  ID: " ++ t.sip_trunk_id))
    emit (.printLine ("  Name: " ++ t.name))
    emit (.printLine ("  Numbers: " ++ toString t.numbers))
    emit (.printLine "")
    printInboundTrunks ts

/-- Print the per-trunk lines of the outbound loop of `list_sip_trunks`. -/
def printOutboundTrunks : List OutboundTrunkInfo → SipM Unit
  | [] => pure ()
  | t :: ts => do
    emit (.printLine ("  ID: " ++ t.sip_trunk_id))
    emit (.printLine ("  Name: " ++ t.name))
    emit (.printLine ("  Address: " ++ t.address))
    emit (.printLine ("  Numbers: " ++ toString t.numbers))
    emit (.printLine "")
    printOutboundTrunks ts

/-- Print the per-rule lines of `list_dispatch_rules`. -/
def printDispatchRules : List DispatchRuleInfo → SipM Unit
  | [] => pure ()
  | r :: rs => do
    emit (.printLine ("  ID: " ++ r.sip_dispatch_rule_id))
    emit (.printLine ("  Name: " ++ r.name))
    emit (.printLine ("  Trunk IDs: " ++ toString r.trunk_ids))
    emit (.printLine ("  Rule: individual room_pref=" ++ r.roomPref))
    emit (.printLine "")
    printDispatchRules rs

/-- Embedding of `list_sip_trunks` (src/sip-config/sip_manager.py lines
16-37). -/
def list_sip_trunks : SipM Unit := do
  emit .openClient
  emit (.printLine "=== Inbound SIP Trunks ===")
  let inbound ← sipCall .listInbound
  let its ← expectInboundList inbound
  printInboundTrunks its
  emit (.printLine "=== Outbound SIP Trunks ===")
  let outbound ← sipCall .listOutbound
  let ots ← expectOutboundList outbound
  printOutboundTrunks ots
  emit .closeClient

/-- Embedding of `list_dispatch_rules` (lines 40-53). -/
def list_dispatch_rules : SipM Unit := do
  emit .openClient
  emit (.printLine "=== SIP Dispatch Rules ===")
  let rules ← sipCall .listRules
  let rs ← expectRuleList rules
  printDispatchRules rs
  emit .closeClient

/-- Embedding of `create_inbound_trunk` (lines 56-72); `allowed` is the
optional `allowed_addresses` parameter, defaulting to `None`, which
`or []` replaces by the empty list. -/
def create_inbound_trunk (name : String) (numbers : List String)
    (allowed : Option (List String)) : SipM InboundTrunkInfo := do
  emit .openClient
  let reply ← sipCall (.createInbound name numbers (allowed.getD []))
  let trunk ← expectInbound reply
  emit (.printLine ("Created inbound trunk: " ++ trunk.sip_trunk_id))
  emit .closeClient
  pure trunk

/-- Embedding of `create_outbound_trunk` (lines 75-99). -/
def create_outbound_trunk (name : String) (address : String) (numbers : List String)
    (auth_username : Option String) (auth_password : Option String) :
    SipM OutboundTrunkInfo := do
  emit .openClient
  let reply ← sipCall (.createOutbound name address numbers
    (auth_username.getD "") (auth_password.getD ""))
  let trunk ← expectOutbound reply
  emit (.printLine ("Created outbound trunk: " ++ trunk.sip_trunk_id))
  emit .closeClient
  pure trunk

/-- Embedding of `create_dispatch_rule` (lines 102-120); the second
positional parameter is the room prefix. -/
def create_dispatch_rule (name : String) (roomPref : String)
    (trunk_ids : Option (List String)) : SipM DispatchRuleInfo := do
  emit .openClient
  let reply ← sipCall (.createRule name (trunk_ids.getD []) roomPref)
  let rule ← expectRule reply
  emit (.printLine ("Created dispatch rule: " ++ rule.sip_dispatch_rule_id))
  emit .closeClient
  pure rule

/-- Embedding of `delete_inbound_trunk` (lines 123-130). -/
def delete_inbound_trunk (trunk_id : String) : SipM Unit := do
  emit .openClient
  let _ ← sipCall (.deleteTrunk trunk_id)
  emit (.printLine ("Deleted trunk: " ++ trunk_id))
  emit .closeClient

/-- Embedding of `delete_dispatch_rule` (lines 133-140). -/
def delete_dispatch_rule (rule_id : String) : SipM Unit := do
  emit .openClient
  let _ ← sipCall (.deleteRule rule_id)
  emit (.printLine ("Deleted dispatch rule: " ++ rule_id))
  emit .closeClient

/-- Embedding of `setup_twilio_trunk` (lines 143-179). -/
def setup_twilio_trunk (phone_number : String) (twilio_domain : String)
    (twilio_username : Option String) (twilio_password : Option String) :
    SipM (InboundTrunkInfo × OutboundTrunkInfo × DispatchRuleInfo) := do
  emit (.printLine "Setting up Twilio SIP Trunk...")
  let inbound ← create_inbound_trunk "Twilio Inbound" [phone_number] none
  let outbound ← create_outbound_trunk "Twilio Outbound" twilio_domain [phone_number]
    twilio_username twilio_password
  let rule ← create_dispatch_rule "Voice Agent Dispatch" "call-"
    (some [inbound.sip_trunk_id])
  emit (.printLine "=== Setup Complete ===")
  emit (.printLine ("Inbound Trunk ID: " ++ inbound.sip_trunk_id))
  emit (.printLine ("Outbound Trunk ID: " ++ outbound.sip_trunk_id))
  emit (.printLine ("Dispatch Rule ID: " ++ rule.sip_dispatch_rule_id))
  pure (inbound, outbound, rule)

/-- Embedding of the `delete-all` branch of `__main__` (lines 211-216):
on an affirmative confirmation it only lists the trunks and prints that
deletion is not implemented; otherwise it does nothing. -/
def delete_all_command (confirm : String) : SipM Unit := do
  if confirm.toLower == "yes" then do
    list_sip_trunks
    emit (.printLine "Deletion not implemented - use lk.exe CLI to delete individual items")
  else pure ()

/-- Run a CLI operation from a fresh process state. -/
def runSip {α : Type} (m : SipM α) (env : SipEnv) : SipSt × Except PyErr α :=
  m env ⟨0, []⟩

/-- The control-plane requests occurring in a trace. -/
def traceRequests (tr : List SipEvent) : List SipRequest :=
  tr.filterMap (fun e => match e with | .request r => some r | _ => none)

/-- Whether a request deletes a resource. -/
def SipRequest.isDelete : SipRequest → Bool
  | .deleteTrunk _ => true
  | .deleteRule _ => true
  | _ => false

/-- Whether a request creates a resource. -/
def SipRequest.isCreate : SipRequest → Bool
  | .createInbound _ _ _ => true
  | .createOutbound _ _ _ _ _ => true
  | .createRule _ _ _ => true
  | _ => false

/-!
Theorems for the claims about the recorders and the mixdown.
-/

theorem addFrames_recording (l : List (List Nat)) (r : LocalAudioRecorder)
    (h : r.is_recording = true) :
    l.foldl (fun acc fr => acc.add_frame (some fr)) r = { r with frames := r.frames ++ l } := by
  induction l generalizing r with
  | nil => simp
  | cons a t ih =>
    have step : r.add_frame (some a) = { r with frames := r.frames ++ [a] } := by
      simp [LocalAudioRecorder.add_frame, h]
    simp only [List.foldl_cons, step]
    rw [ih _ (by simp [h])]
    simp

/-- C7 : Variant A recorder behaviour. -/
theorem c7_variantA_recorder (f : List Nat) (fs : List (List Nat)) :
    ((((f :: fs).foldl (fun acc fr => acc.add_frame (some fr))
        (LocalAudioRecorder.make 48000 1).start).stop).2
      = some (⟨1, 2, 48000, (f :: fs).flatten⟩,
          (((f :: fs).flatten).length : ℚ) / (48000 * 1 * 2)))
    ∧ (((LocalAudioRecorder.make 48000 1).start).stop).2 = none := by
  constructor
  · rw [addFrames_recording _ _ (by simp [LocalAudioRecorder.make, LocalAudioRecorder.start])]
    simp [LocalAudioRecorder.make, LocalAudioRecorder.start, LocalAudioRecorder.stop]
  · simp [LocalAudioRecorder.make, LocalAudioRecorder.start, LocalAudioRecorder.stop]

theorem on_shutdown_clears (g : AgentGlobals) :
    (on_shutdown g).1 = ⟨none, none⟩ := by
  cases g with
  | mk c a => cases c <;> cases a <;> rfl

theorem on_shutdown_cleared :
    on_shutdown ⟨none, none⟩ = (⟨none, none⟩, []) := rfl

/-- C5 : shutdown idempotence. -/
theorem c5_shutdown_idempotent (g : AgentGlobals) (n : Nat) :
    ((runShutdowns (n + 1) g).2 = (on_shutdown g).2 :: List.replicate n [])
    ∧ ((on_shutdown g).2.countP
        (fun e => match e with | .transcriptStopped _ => true | _ => false)
        = if g.conversation_recorder.isSome then 1 else 0)
    ∧ ((on_shutdown g).2.countP
        (fun e => match e with | .audioStopped _ => true | _ => false)
        = if g.audio_recorder.isSome then 1 else 0) := by
  refine ⟨?_, ?_, ?_⟩
  · have hrest : ∀ m, runShutdowns m (⟨none, none⟩ : AgentGlobals)
        = (⟨none, none⟩, List.replicate m []) := by
      intro m
      induction m with
      | zero => rfl
      | succ k ih => simp [runShutdowns, on_shutdown_cleared, ih, List.replicate]
    simp [runShutdowns]
    rcases h : on_shutdown g with ⟨g1, e⟩
    have hg1 : g1 = ⟨none, none⟩ := by
      have := on_shutdown_clears g
      rw [h] at this
      exact this
    rw [hg1, hrest n]
  · cases hc : g.conversation_recorder <;> cases ha : g.audio_recorder <;>
      simp [on_shutdown, hc, ha, List.countP_cons, List.countP_nil]
  · cases hc : g.conversation_recorder <;> cases ha : g.audio_recorder <;>
      simp [on_shutdown, hc, ha, List.countP_cons, List.countP_nil]

theorem applyOp_is_recording (r : ConversationRecorder) (op : TranscriptOp) :
    (applyTranscriptOp r op).is_recording = r.is_recording := by
  cases op <;>
    simp [applyTranscriptOp, ConversationRecorder.add_user_message,
      ConversationRecorder.add_agent_message] <;>
    split <;> rfl

theorem toMessage_text (op : TranscriptOp) : op.toMessage.text = op.text := by
  cases op <;> rfl

/-- C6 : transcript recorder append discipline. -/
theorem c6_transcript_invariant (r : ConversationRecorder) (ops : List TranscriptOp) :
    ((runTranscriptOps r ops).transcript
      = r.transcript ++ (if r.is_recording then
          (ops.filter (fun op => !(op.text.trim == ""))).map TranscriptOp.toMessage
        else []))
    ∧ ((∀ m ∈ r.transcript, ¬ m.text.trim = "") →
        ∀ m ∈ (runTranscriptOps r ops).transcript, ¬ m.text.trim = "") := by
  have main : ∀ (ops : List TranscriptOp) (r : ConversationRecorder),
      (runTranscriptOps r ops).transcript
        = r.transcript ++ (if r.is_recording then
            (ops.filter (fun op => !(op.text.trim == ""))).map TranscriptOp.toMessage
          else []) := by
    intro ops
    induction ops with
    | nil => intro r; simp [runTranscriptOps]
    | cons op t ih =>
      intro r
      by_cases hrec : r.is_recording
      · by_cases hblank : op.text.trim = ""
        · have step : applyTranscriptOp r op = r := by
            cases op with
            | user tx lg nw =>
              simp [TranscriptOp.text] at hblank
              simp [applyTranscriptOp, ConversationRecorder.add_user_message, hblank]
            | agent tx nw =>
              simp [TranscriptOp.text] at hblank
              simp [applyTranscriptOp, ConversationRecorder.add_agent_message, hblank]
          have : runTranscriptOps r (op :: t) = runTranscriptOps r t := by
            simp [runTranscriptOps, List.foldl_cons, step]
          rw [this, ih r]
          simp [hrec, List.filter_cons, hblank]
        · have step : applyTranscriptOp r op
              = { r with transcript := r.transcript ++ [op.toMessage] } := by
            cases op with
            | user tx lg nw =>
              simp [TranscriptOp.text] at hblank
              simp [applyTranscriptOp, ConversationRecorder.add_user_message, hrec, hblank,
                TranscriptOp.toMessage]
            | agent tx nw =>
              simp [TranscriptOp.text] at hblank
              simp [applyTranscriptOp, ConversationRecorder.add_agent_message, hrec, hblank,
                TranscriptOp.toMessage]
          have h2 : runTranscriptOps r (op :: t)
              = runTranscriptOps ({ r with transcript := r.transcript ++ [op.toMessage] }) t := by
            simp [runTranscriptOps, List.foldl_cons, step]
          rw [h2, ih]
          simp [hrec, List.filter_cons, hblank]
      · have step : applyTranscriptOp r op = r := by
          cases op with
          | user tx lg nw =>
            simp [applyTranscriptOp, ConversationRecorder.add_user_message, hrec]
          | agent tx nw =>
            simp [applyTranscriptOp, ConversationRecorder.add_agent_message, hrec]
        have : runTranscriptOps r (op :: t) = runTranscriptOps r t := by
          simp [runTranscriptOps, List.foldl_cons, step]
        rw [this, ih r]
        simp [hrec]
  refine ⟨main ops r, ?_⟩
  intro hinv m hm
  rw [main ops r] at hm
  rcases List.mem_append.mp hm with h | h
  · exact hinv m h
  · by_cases hrec : r.is_recording
    · rw [if_pos hrec] at h
      rcases List.mem_map.mp h with ⟨op, hop, rfl⟩
      have := (List.mem_filter.mp hop).2
      rw [toMessage_text]
      simpa using this
    · rw [if_neg hrec] at h
      simp at h

/-- C6 witness. -/
theorem c6_witness :
    (∀ m ∈ (ConversationRecorder.transcript ⟨[], true⟩), ¬ m.text.trim = "") ∧
    (∀ m ∈ (runTranscriptOps ⟨[], true⟩
        [.user "hello" "en" "t1", .user "   " "en" "t2", .agent "hi" "t3"]).transcript,
      ¬ m.text.trim = "") := by
  constructor
  · intro m hm; simp at hm
  · exact (c6_transcript_invariant ⟨[], true⟩
      [.user "hello" "en" "t1", .user "   " "en" "t2", .agent "hi" "t3"]).2
      (by intro m hm; simp at hm)

theorem append_pad_getD (l : List Int) (k i : Nat) :
    (l ++ List.replicate k (0 : Int)).getD i 0 = l.getD i 0 := by
  by_cases h : i < l.length
  · rw [List.getD_append _ _ _ _ h]
  · push_neg at h
    rw [List.getD_eq_default _ _ h]
    by_cases h2 : i < l.length + k
    · rw [List.getD_eq_getElem _ _ (by simpa using h2)]
      rw [List.getElem_append_right (by simpa using h)]
      simp
    · rw [List.getD_eq_default]
      simp
      omega

theorem pad_length (l : List Int) (m : Nat) (h : l.length ≤ m) :
    (l ++ List.replicate (m - l.length) (0 : Int)).length = m := by
  simp
  omega

/-- C1 : the mixdown pipeline. -/
theorem c1_combine_mixdown (user_rate agent_rate : Nat)
    (user_samples agent_samples : List Int)
    (h1 : 0 < user_rate) (h2 : 0 < agent_rate) :
    ((combine_audio_files user_rate user_samples agent_rate agent_samples).1.nchannels = 1)
  ∧ ((combine_audio_files user_rate user_samples agent_rate agent_samples).1.sampwidth = 2)
  ∧ ((combine_audio_files user_rate user_samples agent_rate agent_samples).1.framerate
      = max user_rate agent_rate)
  ∧ ((combine_audio_files user_rate user_samples agent_rate agent_samples).1.samples.length
      = max (resample user_samples user_rate (max user_rate agent_rate)).length
            (resample agent_samples agent_rate (max user_rate agent_rate)).length)
  ∧ (∀ i, i < (combine_audio_files user_rate user_samples agent_rate agent_samples).1.samples.length →
      ((combine_audio_files user_rate user_samples agent_rate agent_samples).1.samples.getD i 0
        = clamp16 (((resample user_samples user_rate (max user_rate agent_rate)).getD i 0
            + (resample agent_samples agent_rate (max user_rate agent_rate)).getD i 0).fdiv 2))) := by
  simp only [combine_audio_files]
  set u1 := resample user_samples user_rate (max user_rate agent_rate) with hu1
  set a1 := resample agent_samples agent_rate (max user_rate agent_rate) with ha1
  set m := max u1.length a1.length with hm
  set u2 := u1 ++ List.replicate (m - u1.length) (0 : Int) with hu2
  set a2 := a1 ++ List.replicate (m - a1.length) (0 : Int) with ha2
  have hu2l : u2.length = m := pad_length _ _ (le_max_left _ _)
  have ha2l : a2.length = m := pad_length _ _ (le_max_right _ _)
  have hlen : ((u2.zip a2).map (fun p => clamp16 ((p.1 + p.2).fdiv 2))).length = m := by
    simp [List.length_zip, hu2l, ha2l]
  refine ⟨trivial, trivial, trivial, hlen, ?_⟩
  intro i hi
  rw [hlen] at hi
  have hiu : i < u2.length := by omega
  have hia : i < a2.length := by omega
  rw [List.getD_eq_getElem _ _ (by simp [List.length_zip, hu2l, ha2l]; omega)]
  rw [List.getElem_map, List.getElem_zip]
  have e1 : u2[i] = u1.getD i 0 := by
    rw [← append_pad_getD u1 (m - u1.length) i, ← hu2, List.getD_eq_getElem _ _ hiu]
  have e2 : a2[i] = a1.getD i 0 := by
    rw [← append_pad_getD a1 (m - a1.length) i, ← ha2, List.getD_eq_getElem _ _ hia]
  rw [e1, e2]

/-- C1 witness. -/
theorem c1_combine_mixdown_witness :
    (0 < 8000 ∧ 0 < 16000)
    ∧ (combine_audio_files 8000 [1000, -1000] 16000 [10, 20, 30, 40]).1.framerate = 16000 := by
  refine ⟨⟨by norm_num, by norm_num⟩, ?_⟩
  have h := (c1_combine_mixdown 8000 16000 [1000, -1000] [10, 20, 30, 40]
    (by norm_num) (by norm_num)).2.2.1
  simpa using h

theorem ratTrunc_eq_floor (q : ℚ) (h : 0 ≤ q) : ratTrunc q = ⌊q⌋ := by
  rw [Rat.floor_def, ratTrunc, Int.tdiv_eq_ediv (Rat.num_nonneg.mpr h) (by positivity)]

theorem ratTrunc_neg (q : ℚ) : ratTrunc (-q) = -(ratTrunc q) := by
  simp [ratTrunc, Rat.neg_num, Int.neg_tdiv]

theorem ratTrunc_eq_ceil (q : ℚ) (h : q ≤ 0) : ratTrunc q = ⌈q⌉ := by
  have h2 : ratTrunc (-(-q)) = ratTrunc q := by rw [neg_neg]
  rw [← h2, ratTrunc_neg, ratTrunc_eq_floor (-q) (by linarith), Int.floor_neg]
  simp

theorem ratTrunc_bounds {m M : ℤ} {q : ℚ} (hm : m ≤ 0) (hM : 0 ≤ M)
    (hq1 : (m : ℚ) ≤ q) (hq2 : q ≤ (M : ℚ)) : m ≤ ratTrunc q ∧ ratTrunc q ≤ M := by
  rcases le_total 0 q with hq | hq
  · rw [ratTrunc_eq_floor q hq]
    refine ⟨?_, ?_⟩
    · have : (0 : ℤ) ≤ ⌊q⌋ := Int.floor_nonneg.mpr hq
      omega
    · have := Int.floor_le_floor hq2
      simpa using this
  · rw [ratTrunc_eq_ceil q hq]
    refine ⟨?_, ?_⟩
    · have := Int.ceil_le_ceil hq1
      simpa using this
    · have : ⌈q⌉ ≤ 0 := by
        have := Int.ceil_le_ceil hq
        simpa using this
      omega

theorem resample_in_range (samples : List Int) (fr tr : Nat)
    (h : ∀ s ∈ samples, -32768 ≤ s ∧ s ≤ 32767) :
    ∀ x ∈ resample samples fr tr, -32768 ≤ x ∧ x ≤ 32767 := by
  intro x hx
  rw [resample] at hx
  by_cases heq : (fr == tr) = true
  · rw [if_pos heq] at hx
    exact h x hx
  · rw [if_neg heq] at hx
    rcases List.mem_map.mp hx with ⟨i, hmem, rfl⟩
    rw [List.mem_range] at hmem
    dsimp only
    by_cases hr0 : ((tr : ℚ) / (fr : ℚ)) = 0
    · exfalso
      rw [hr0] at hmem
      simp [ratTrunc] at hmem
    · have hratio : 0 < ((tr : ℚ) / (fr : ℚ)) := by
        rcases lt_or_eq_of_le (div_nonneg (by positivity) (by positivity) :
            (0:ℚ) ≤ (tr : ℚ) / (fr : ℚ)) with hlt | heq0
        · exact hlt
        · exact absurd heq0.symm hr0
      by_cases hlast : ((samples.length : Int) - 1 ≤ ratTrunc ((i : ℚ) / ((tr : ℚ) / (fr : ℚ))))
      · rw [if_pos hlast]
        cases hl : samples.getLast? with
        | none => simp [hl]
        | some v =>
          have hv : v ∈ samples := by
            obtain ⟨hne, rfl⟩ := List.mem_getLast?_eq_getLast (Option.mem_def.mpr hl)
            exact List.getLast_mem hne
          simpa [hl] using h v hv
      · rw [if_neg hlast]
        have hi0 : (0 : ℚ) ≤ (i : ℚ) := by exact_mod_cast Nat.zero_le i
        have hsrc : (0 : ℚ) ≤ (i : ℚ) / ((tr : ℚ) / (fr : ℚ)) :=
          div_nonneg hi0 (le_of_lt hratio)
        set src : ℚ := (i : ℚ) / ((tr : ℚ) / (fr : ℚ)) with hsrcdef
        have hfloor : ratTrunc src = ⌊src⌋ := ratTrunc_eq_floor src hsrc
        have hf0 : 0 ≤ src - (ratTrunc src : ℚ) := by
          rw [hfloor]
          have := Int.floor_le src
          linarith
        have hf1 : src - (ratTrunc src : ℚ) ≤ 1 := by
          rw [hfloor]
          have := Int.lt_floor_add_one src
          linarith
        have helem : ∀ j, -32768 ≤ samples.getD j (0 : Int) ∧ samples.getD j (0 : Int) ≤ 32767 := by
          intro j
          by_cases hj : j < samples.length
          · rw [List.getD_eq_getElem _ _ hj]
            exact h _ (samples.getElem_mem hj)
          · rw [List.getD_eq_default _ _ (le_of_not_lt hj)]
            norm_num
        obtain ⟨e11, e12⟩ := helem (ratTrunc src).toNat
        obtain ⟨e21, e22⟩ := helem ((ratTrunc src).toNat + 1)
        have c1 : ((-32768 : ℤ) : ℚ) ≤ ((samples.getD (ratTrunc src).toNat 0 : Int) : ℚ)
            * (1 - (src - (ratTrunc src : ℚ)))
            + ((samples.getD ((ratTrunc src).toNat + 1) 0 : Int) : ℚ) * (src - (ratTrunc src : ℚ)) := by
          have b1 : ((-32768 : ℤ) : ℚ) ≤ ((samples.getD (ratTrunc src).toNat 0 : Int) : ℚ) := by
            exact_mod_cast e11
          have b2 : ((-32768 : ℤ) : ℚ) ≤ ((samples.getD ((ratTrunc src).toNat + 1) 0 : Int) : ℚ) := by
            exact_mod_cast e21
          nlinarith
        have c2 : ((samples.getD (ratTrunc src).toNat 0 : Int) : ℚ)
            * (1 - (src - (ratTrunc src : ℚ)))
            + ((samples.getD ((ratTrunc src).toNat + 1) 0 : Int) : ℚ) * (src - (ratTrunc src : ℚ))
            ≤ ((32767 : ℤ) : ℚ) := by
          have b1 : ((samples.getD (ratTrunc src).toNat 0 : Int) : ℚ) ≤ ((32767 : ℤ) : ℚ) := by
            exact_mod_cast e12
          have b2 : ((samples.getD ((ratTrunc src).toNat + 1) 0 : Int) : ℚ) ≤ ((32767 : ℤ) : ℚ) := by
            exact_mod_cast e22
          nlinarith
        have := ratTrunc_bounds (m := -32768) (M := 32767) (by norm_num) (by norm_num) c1 c2
        exact this

/-- C10 : the clamp in the mix loop is redundant and resampling preserves
the signed 16-bit range. -/
theorem c10_mix_in_range :
    (∀ u a : Int, -32768 ≤ u → u ≤ 32767 → -32768 ≤ a → a ≤ 32767 →
      (-32768 ≤ (u + a).fdiv 2 ∧ (u + a).fdiv 2 ≤ 32767
        ∧ clamp16 ((u + a).fdiv 2) = (u + a).fdiv 2))
  ∧ (∀ (samples : List Int) (fr tr : Nat),
      (∀ s ∈ samples, -32768 ≤ s ∧ s ≤ 32767) →
      ∀ x ∈ resample samples fr tr, -32768 ≤ x ∧ x ≤ 32767) := by
  constructor
  · intro u a h1 h2 h3 h4
    have hd : (u + a).fdiv 2 = (u + a) / 2 := Int.fdiv_eq_ediv _ (by norm_num)
    have r1 : -32768 ≤ (u + a).fdiv 2 := by rw [hd]; omega
    have r2 : (u + a).fdiv 2 ≤ 32767 := by rw [hd]; omega
    exact ⟨r1, r2, by rw [clamp16, min_eq_right r2, max_eq_right r1]⟩
  · exact resample_in_range

/-- C10 witness. -/
theorem c10_mix_in_range_witness :
    (clamp16 ((32767 + 32767 : Int).fdiv 2) = (32767 + 32767 : Int).fdiv 2)
    ∧ ∀ x ∈ resample [32767, -32768] 8000 16000, -32768 ≤ x ∧ x ≤ 32767 := by
  constructor
  · exact (c10_mix_in_range.1 32767 32767 (by norm_num) (by norm_num)
      (by norm_num) (by norm_num)).2.2
  · exact c10_mix_in_range.2 [32767, -32768] 8000 16000 (by
      intro s hs
      simp at hs
      rcases hs with h | h <;> simp [h])

/-!
Theorems for the claims about the provisioning CLI.
-/

theorem pure_run {α : Type} (a : α) (env : SipEnv) (s : SipSt) :
    (pure a : SipM α) env s = (s, .ok a) := rfl

theorem bind_run {α β : Type} (m : SipM α) (f : α → SipM β) (env : SipEnv) (s : SipSt) :
    (m >>= f) env s
      = match m env s with
        | (s1, .ok a) => f a env s1
        | (s1, .error e) => (s1, .error e) := rfl

theorem emit_run (e : SipEvent) (env : SipEnv) (s : SipSt) :
    emit e env s = ({ s with trace := s.trace ++ [e] }, .ok ()) := rfl

theorem sipCall_run (r : SipRequest) (env : SipEnv) (s : SipSt) :
    sipCall r env s = (⟨s.ncalls + 1, s.trace ++ [.request r]⟩, env s.ncalls) := rfl

theorem create_inbound_trunk_eval (name : String) (numbers : List String)
    (allowed : Option (List String)) (env : SipEnv) (s : SipSt) (t : InboundTrunkInfo)
    (h : env s.ncalls = .ok (.inboundTrunk t)) :
    create_inbound_trunk name numbers allowed env s
      = (⟨s.ncalls + 1, s.trace ++ [.openClient,
          .request (.createInbound name numbers (allowed.getD [])),
          .printLine ("Created inbound trunk: " ++ t.sip_trunk_id), .closeClient]⟩, .ok t) := by
  simp [create_inbound_trunk, bind_run, emit_run, sipCall_run, h, expectInbound, pure_run]

theorem create_outbound_trunk_eval (name address : String) (numbers : List String)
    (au ap : Option String) (env : SipEnv) (s : SipSt) (t : OutboundTrunkInfo)
    (h : env s.ncalls = .ok (.outboundTrunk t)) :
    create_outbound_trunk name address numbers au ap env s
      = (⟨s.ncalls + 1, s.trace ++ [.openClient,
          .request (.createOutbound name address numbers (au.getD "") (ap.getD "")),
          .printLine ("Created outbound trunk: " ++ t.sip_trunk_id), .closeClient]⟩, .ok t) := by
  simp [create_outbound_trunk, bind_run, emit_run, sipCall_run, h, expectOutbound, pure_run]

theorem create_dispatch_rule_eval (name pre : String) (trunk_ids : Option (List String))
    (env : SipEnv) (s : SipSt) (t : DispatchRuleInfo)
    (h : env s.ncalls = .ok (.dispatchRule t)) :
    create_dispatch_rule name pre trunk_ids env s
      = (⟨s.ncalls + 1, s.trace ++ [.openClient,
          .request (.createRule name (trunk_ids.getD []) pre),
          .printLine ("Created dispatch rule: " ++ t.sip_dispatch_rule_id), .closeClient]⟩, .ok t) := by
  simp [create_dispatch_rule, bind_run, emit_run, sipCall_run, h, expectRule, pure_run]

theorem delete_inbound_trunk_eval (tid : String) (env : SipEnv) (s : SipSt) (rep : SipReply)
    (h : env s.ncalls = .ok rep) :
    delete_inbound_trunk tid env s
      = (⟨s.ncalls + 1, s.trace ++ [.openClient, .request (.deleteTrunk tid),
          .printLine ("Deleted trunk: " ++ tid), .closeClient]⟩, .ok ()) := by
  simp [delete_inbound_trunk, bind_run, emit_run, sipCall_run, h, pure_run]

theorem delete_dispatch_rule_eval (rid : String) (env : SipEnv) (s : SipSt) (rep : SipReply)
    (h : env s.ncalls = .ok rep) :
    delete_dispatch_rule rid env s
      = (⟨s.ncalls + 1, s.trace ++ [.openClient, .request (.deleteRule rid),
          .printLine ("Deleted dispatch rule: " ++ rid), .closeClient]⟩, .ok ()) := by
  simp [delete_dispatch_rule, bind_run, emit_run, sipCall_run, h, pure_run]

/-- The print lines the inbound loop outputs for given items. -/
def inboundLines : List InboundTrunkInfo → List SipEvent
  | [] => []
  | t :: ts =>
    [.printLine ("  ID: " ++ t.sip_trunk_id), .printLine ("  Name: " ++ t.name),
     .printLine ("  Numbers: " ++ toString t.numbers), .printLine ""] ++ inboundLines ts

/-- The print lines the outbound loop outputs for given items. -/
def outboundLines : List OutboundTrunkInfo → List SipEvent
  | [] => []
  | t :: ts =>
    [.printLine ("  ID: " ++ t.sip_trunk_id), .printLine ("  Name: " ++ t.name),
     .printLine ("  Address: " ++ t.address),
     .printLine ("  Numbers: " ++ toString t.numbers), .printLine ""] ++ outboundLines ts

theorem printInboundTrunks_eval (ts : List InboundTrunkInfo) (env : SipEnv) (s : SipSt) :
    printInboundTrunks ts env s = ({ s with trace := s.trace ++ inboundLines ts }, .ok ()) := by
  induction ts generalizing s with
  | nil => simp [printInboundTrunks, inboundLines, pure_run]
  | cons t ts ih =>
    simp [printInboundTrunks, inboundLines, bind_run, emit_run, ih]

theorem printOutboundTrunks_eval (ts : List OutboundTrunkInfo) (env : SipEnv) (s : SipSt) :
    printOutboundTrunks ts env s = ({ s with trace := s.trace ++ outboundLines ts }, .ok ()) := by
  induction ts generalizing s with
  | nil => simp [printOutboundTrunks, outboundLines, pure_run]
  | cons t ts ih =>
    simp [printOutboundTrunks, outboundLines, bind_run, emit_run, ih]

theorem list_sip_trunks_eval (env : SipEnv) (s : SipSt)
    (its : List InboundTrunkInfo) (ots : List OutboundTrunkInfo)
    (h0 : env s.ncalls = .ok (.inboundTrunks its))
    (h1 : env (s.ncalls + 1) = .ok (.outboundTrunks ots)) :
    list_sip_trunks env s
      = (⟨s.ncalls + 2, s.trace
          ++ [.openClient, .printLine "=== Inbound SIP Trunks ===", .request .listInbound]
          ++ inboundLines its
          ++ [.printLine "=== Outbound SIP Trunks ===", .request .listOutbound]
          ++ outboundLines ots
          ++ [.closeClient]⟩, .ok ()) := by
  simp [list_sip_trunks, bind_run, emit_run, sipCall_run, h0, h1, expectInboundList,
    expectOutboundList, pure_run, printInboundTrunks_eval, printOutboundTrunks_eval]

theorem setup_twilio_trunk_eval (phone domain : String) (user pw : Option String)
    (env : SipEnv) (s : SipSt)
    (it : InboundTrunkInfo) (ot : OutboundTrunkInfo) (dr : DispatchRuleInfo)
    (h0 : env s.ncalls = .ok (.inboundTrunk it))
    (h1 : env (s.ncalls + 1) = .ok (.outboundTrunk ot))
    (h2 : env (s.ncalls + 2) = .ok (.dispatchRule dr)) :
    setup_twilio_trunk phone domain user pw env s
      = (⟨s.ncalls + 3, s.trace
          ++ [.printLine "Setting up Twilio SIP Trunk...",
              .openClient,
              .request (.createInbound "Twilio Inbound" [phone] []),
              .printLine ("Created inbound trunk: " ++ it.sip_trunk_id),
              .closeClient,
              .openClient,
              .request (.createOutbound "Twilio Outbound" domain [phone]
                (user.getD "") (pw.getD "")),
              .printLine ("Created outbound trunk: " ++ ot.sip_trunk_id),
              .closeClient,
              .openClient,
              .request (.createRule "Voice Agent Dispatch" [it.sip_trunk_id] "call-"),
              .printLine ("Created dispatch rule: " ++ dr.sip_dispatch_rule_id),
              .closeClient,
              .printLine "=== Setup Complete ===",
              .printLine ("Inbound Trunk ID: " ++ it.sip_trunk_id),
              .printLine ("Outbound Trunk ID: " ++ ot.sip_trunk_id),
              .printLine ("Dispatch Rule ID: " ++ dr.sip_dispatch_rule_id)]⟩,
         .ok (it, ot, dr)) := by
  simp [setup_twilio_trunk, create_inbound_trunk, create_outbound_trunk,
    create_dispatch_rule, bind_run, emit_run, sipCall_run, expectInbound,
    expectOutbound, expectRule, pure_run, h0, h1, h2]

/-- The print lines of the dispatch-rule loop. -/
def ruleLines : List DispatchRuleInfo → List SipEvent
  | [] => []
  | r :: rs =>
    [.printLine ("  ID: " ++ r.sip_dispatch_rule_id), .printLine ("  Name: " ++ r.name),
     .printLine ("  Trunk IDs: " ++ toString r.trunk_ids),
     .printLine ("  Rule: individual room_pref=" ++ r.roomPref), .printLine ""] ++ ruleLines rs

theorem printDispatchRules_eval (rs : List DispatchRuleInfo) (env : SipEnv) (s : SipSt) :
    printDispatchRules rs env s = ({ s with trace := s.trace ++ ruleLines rs }, .ok ()) := by
  induction rs generalizing s with
  | nil => simp [printDispatchRules, ruleLines, pure_run]
  | cons r rs ih =>
    simp [printDispatchRules, ruleLines, bind_run, emit_run, ih]

theorem list_dispatch_rules_eval (env : SipEnv) (s : SipSt) (rs : List DispatchRuleInfo)
    (h0 : env s.ncalls = .ok (.dispatchRules rs)) :
    list_dispatch_rules env s
      = (⟨s.ncalls + 1, s.trace
          ++ [.openClient, .printLine "=== SIP Dispatch Rules ===", .request .listRules]
          ++ ruleLines rs
          ++ [.closeClient]⟩, .ok ()) := by
  simp [list_dispatch_rules, bind_run, emit_run, sipCall_run, h0, expectRuleList,
    pure_run, printDispatchRules_eval]

theorem traceRequests_append (a b : List SipEvent) :
    traceRequests (a ++ b) = traceRequests a ++ traceRequests b := by
  simp [traceRequests, List.filterMap_append]

theorem traceRequests_inboundLines (ts : List InboundTrunkInfo) :
    traceRequests (inboundLines ts) = [] := by
  induction ts with
  | nil => rfl
  | cons t ts ih => simp only [inboundLines, traceRequests_append, ih]; rfl

theorem traceRequests_outboundLines (ts : List OutboundTrunkInfo) :
    traceRequests (outboundLines ts) = [] := by
  induction ts with
  | nil => rfl
  | cons t ts ih => simp only [outboundLines, traceRequests_append, ih]; rfl

theorem traceRequests_ruleLines (rs : List DispatchRuleInfo) :
    traceRequests (ruleLines rs) = [] := by
  induction rs with
  | nil => rfl
  | cons r rs ih => simp only [ruleLines, traceRequests_append, ih]; rfl

/-- No delete request occurs among the events. -/
def NoDel (tr : List SipEvent) : Prop :=
  ∀ r ∈ traceRequests tr, SipRequest.isDelete r = false

theorem NoDel_append {a b : List SipEvent} (ha : NoDel a) (hb : NoDel b) :
    NoDel (a ++ b) := by
  intro r hr
  rw [traceRequests_append] at hr
  rcases List.mem_append.mp hr with h | h
  · exact ha r h
  · exact hb r h

theorem NoDel_inboundLines (ts : List InboundTrunkInfo) : NoDel (inboundLines ts) := by
  intro r hr
  rw [traceRequests_inboundLines] at hr
  simp at hr

theorem NoDel_outboundLines (ts : List OutboundTrunkInfo) : NoDel (outboundLines ts) := by
  intro r hr
  rw [traceRequests_outboundLines] at hr
  simp at hr

theorem list_sip_trunks_no_delete (env : SipEnv) (s : SipSt) (hs : NoDel s.trace) :
    NoDel ((list_sip_trunks env s).1.trace) := by
  have hshort : NoDel (s.trace
      ++ [.openClient, .printLine "=== Inbound SIP Trunks ===", .request .listInbound]) :=
    NoDel_append hs (by intro r hr; simp [traceRequests] at hr; simp [hr, SipRequest.isDelete])
  cases h0 : env s.ncalls with
  | error e =>
    have ht : (list_sip_trunks env s).1.trace = s.trace
        ++ [.openClient, .printLine "=== Inbound SIP Trunks ===", .request .listInbound] := by
      simp [list_sip_trunks, bind_run, emit_run, sipCall_run, h0]
    rw [ht]; exact hshort
  | ok rep =>
    cases rep with
    | inboundTrunks its =>
      have hmid : NoDel ((s.trace
          ++ [.openClient, .printLine "=== Inbound SIP Trunks ===", .request .listInbound])
          ++ inboundLines its
          ++ [.printLine "=== Outbound SIP Trunks ===", .request .listOutbound]) := by
        refine NoDel_append (NoDel_append hshort (NoDel_inboundLines its)) ?_
        intro r hr; simp [traceRequests] at hr; simp [hr, SipRequest.isDelete]
      cases h1 : env (s.ncalls + 1) with
      | error e =>
        have ht : (list_sip_trunks env s).1.trace = (s.trace
            ++ [.openClient, .printLine "=== Inbound SIP Trunks ===", .request .listInbound])
            ++ inboundLines its
            ++ [.printLine "=== Outbound SIP Trunks ===", .request .listOutbound] := by
          simp [list_sip_trunks, bind_run, emit_run, sipCall_run, h0, h1,
            expectInboundList, pure_run, printInboundTrunks_eval]
        rw [ht]; exact hmid
      | ok rep2 =>
        cases rep2 with
        | outboundTrunks ots =>
          have ht : (list_sip_trunks env s).1.trace = ((s.trace
              ++ [.openClient, .printLine "=== Inbound SIP Trunks ===", .request .listInbound])
              ++ inboundLines its
              ++ [.printLine "=== Outbound SIP Trunks ===", .request .listOutbound])
              ++ outboundLines ots ++ [.closeClient] := by
            simp [list_sip_trunks, bind_run, emit_run, sipCall_run, h0, h1,
              expectInboundList, expectOutboundList, pure_run,
              printInboundTrunks_eval, printOutboundTrunks_eval]
          rw [ht]
          refine NoDel_append (NoDel_append hmid (NoDel_outboundLines ots)) ?_
          intro r hr; simp [traceRequests] at hr
        | inboundTrunks x => 
          have ht : (list_sip_trunks env s).1.trace = (s.trace
              ++ [.openClient, .printLine "=== Inbound SIP Trunks ===", .request .listInbound])
              ++ inboundLines its
              ++ [.printLine "=== Outbound SIP Trunks ===", .request .listOutbound] := by
            simp [list_sip_trunks, bind_run, emit_run, sipCall_run, h0, h1,
              expectInboundList, expectOutboundList, pure_run, printInboundTrunks_eval]
          rw [ht]; exact hmid
        | dispatchRules x =>
          have ht : (list_sip_trunks env s).1.trace = (s.trace
              ++ [.openClient, .printLine "=== Inbound SIP Trunks ===", .request .listInbound])
              ++ inboundLines its
              ++ [.printLine "=== Outbound SIP Trunks ===", .request .listOutbound] := by
            simp [list_sip_trunks, bind_run, emit_run, sipCall_run, h0, h1,
              expectInboundList, expectOutboundList, pure_run, printInboundTrunks_eval]
          rw [ht]; exact hmid
        | inboundTrunk x =>
          have ht : (list_sip_trunks env s).1.trace = (s.trace
              ++ [.openClient, .printLine "=== Inbound SIP Trunks ===", .request .listInbound])
              ++ inboundLines its
              ++ [.printLine "=== Outbound SIP Trunks ===", .request .listOutbound] := by
            simp [list_sip_trunks, bind_run, emit_run, sipCall_run, h0, h1,
              expectInboundList, expectOutboundList, pure_run, printInboundTrunks_eval]
          rw [ht]; exact hmid
        | outboundTrunk x =>
          have ht : (list_sip_trunks env s).1.trace = (s.trace
              ++ [.openClient, .printLine "=== Inbound SIP Trunks ===", .request .listInbound])
              ++ inboundLines its
              ++ [.printLine "=== Outbound SIP Trunks ===", .request .listOutbound] := by
            simp [list_sip_trunks, bind_run, emit_run, sipCall_run, h0, h1,
              expectInboundList, expectOutboundList, pure_run, printInboundTrunks_eval]
          rw [ht]; exact hmid
        | dispatchRule x =>
          have ht : (list_sip_trunks env s).1.trace = (s.trace
              ++ [.openClient, .printLine "=== Inbound SIP Trunks ===", .request .listInbound])
              ++ inboundLines its
              ++ [.printLine "=== Outbound SIP Trunks ===", .request .listOutbound] := by
            simp [list_sip_trunks, bind_run, emit_run, sipCall_run, h0, h1,
              expectInboundList, expectOutboundList, pure_run, printInboundTrunks_eval]
          rw [ht]; exact hmid
        | deleted =>
          have ht : (list_sip_trunks env s).1.trace = (s.trace
              ++ [.openClient, .printLine "=== Inbound SIP Trunks ===", .request .listInbound])
              ++ inboundLines its
              ++ [.printLine "=== Outbound SIP Trunks ===", .request .listOutbound] := by
            simp [list_sip_trunks, bind_run, emit_run, sipCall_run, h0, h1,
              expectInboundList, expectOutboundList, pure_run, printInboundTrunks_eval]
          rw [ht]; exact hmid
    | outboundTrunks x =>
      have ht : (list_sip_trunks env s).1.trace = s.trace
          ++ [.openClient, .printLine "=== Inbound SIP Trunks ===", .request .listInbound] := by
        simp [list_sip_trunks, bind_run, emit_run, sipCall_run, h0, expectInboundList]
      rw [ht]; exact hshort
    | dispatchRules x =>
      have ht : (list_sip_trunks env s).1.trace = s.trace
          ++ [.openClient, .printLine "=== Inbound SIP Trunks ===", .request .listInbound] := by
        simp [list_sip_trunks, bind_run, emit_run, sipCall_run, h0, expectInboundList]
      rw [ht]; exact hshort
    | inboundTrunk x =>
      have ht : (list_sip_trunks env s).1.trace = s.trace
          ++ [.openClient, .printLine "=== Inbound SIP Trunks ===", .request .listInbound] := by
        simp [list_sip_trunks, bind_run, emit_run, sipCall_run, h0, expectInboundList]
      rw [ht]; exact hshort
    | outboundTrunk x =>
      have ht : (list_sip_trunks env s).1.trace = s.trace
          ++ [.openClient, .printLine "=== Inbound SIP Trunks ===", .request .listInbound] := by
        simp [list_sip_trunks, bind_run, emit_run, sipCall_run, h0, expectInboundList]
      rw [ht]; exact hshort
    | dispatchRule x =>
      have ht : (list_sip_trunks env s).1.trace = s.trace
          ++ [.openClient, .printLine "=== Inbound SIP Trunks ===", .request .listInbound] := by
        simp [list_sip_trunks, bind_run, emit_run, sipCall_run, h0, expectInboundList]
      rw [ht]; exact hshort
    | deleted =>
      have ht : (list_sip_trunks env s).1.trace = s.trace
          ++ [.openClient, .printLine "=== Inbound SIP Trunks ===", .request .listInbound] := by
        simp [list_sip_trunks, bind_run, emit_run, sipCall_run, h0, expectInboundList]
      rw [ht]; exact hshort

/-- C9 : the delete-all command never issues a delete request to the
control plane, whatever the confirmation answer and whatever the control
plane replies: its trace contains list requests at most. -/
theorem c9_delete_all_never_deletes (confirm : String) (env : SipEnv) :
    ((traceRequests ((runSip (delete_all_command confirm) env).1.trace)).all
      (fun r => !(SipRequest.isDelete r))) = true := by
  have key : NoDel ((runSip (delete_all_command confirm) env).1.trace) := by
    rw [runSip, delete_all_command]
    by_cases hc : (confirm.toLower == "yes") = true
    · simp only [hc, if_pos]
      have base : NoDel (SipSt.trace ⟨0, []⟩) := by intro r hr; simp [traceRequests] at hr
      have h1 := list_sip_trunks_no_delete env ⟨0, []⟩ base
      rcases hres : list_sip_trunks env ⟨0, []⟩ with ⟨s1, r1⟩
      rw [hres] at h1
      cases r1 with
      | ok a =>
        have ht : ((list_sip_trunks >>= fun _ =>
            emit (.printLine "Deletion not implemented - use lk.exe CLI to delete individual items"))
              env ⟨0, []⟩).1.trace
            = s1.trace ++ [.printLine "Deletion not implemented - use lk.exe CLI to delete individual items"] := by
          simp [bind_run, hres, emit_run]
        rw [ht]
        exact NoDel_append h1 (by intro r hr; simp [traceRequests] at hr)
      | error e =>
        have ht : ((list_sip_trunks >>= fun _ =>
            emit (.printLine "Deletion not implemented - use lk.exe CLI to delete individual items"))
              env ⟨0, []⟩).1.trace = s1.trace := by
          simp [bind_run, hres]
        rw [ht]
        exact h1
    · have hc2 : (confirm.toLower == "yes") = false := by simpa using hc
      rw [hc2]
      intro r hr
      simp [pure_run, traceRequests] at hr
  rw [List.all_eq_true]
  intro r hr
  simp [key r hr]

/-- C8 : setupProvider issues exactly the three creation calls, in order,
with the stated names and parameters, the dispatch rule scoped to the new
inbound trunk id, and prints all three ids. -/
theorem c8_setup_provider (phone domain : String) (user pw : Option String)
    (env : SipEnv) (it : InboundTrunkInfo) (ot : OutboundTrunkInfo) (dr : DispatchRuleInfo)
    (h0 : env 0 = .ok (.inboundTrunk it))
    (h1 : env 1 = .ok (.outboundTrunk ot))
    (h2 : env 2 = .ok (.dispatchRule dr)) :
    ((runSip (setup_twilio_trunk phone domain user pw) env).2 = .ok (it, ot, dr))
  ∧ (traceRequests ((runSip (setup_twilio_trunk phone domain user pw) env).1.trace)
      = [.createInbound "Twilio Inbound" [phone] [],
         .createOutbound "Twilio Outbound" domain [phone] (user.getD "") (pw.getD ""),
         .createRule "Voice Agent Dispatch" [it.sip_trunk_id] "call-"])
  ∧ (.printLine ("Inbound Trunk ID: " ++ it.sip_trunk_id)
      ∈ (runSip (setup_twilio_trunk phone domain user pw) env).1.trace)
  ∧ (.printLine ("Outbound Trunk ID: " ++ ot.sip_trunk_id)
      ∈ (runSip (setup_twilio_trunk phone domain user pw) env).1.trace)
  ∧ (.printLine ("Dispatch Rule ID: " ++ dr.sip_dispatch_rule_id)
      ∈ (runSip (setup_twilio_trunk phone domain user pw) env).1.trace) := by
  have e := setup_twilio_trunk_eval phone domain user pw env ⟨0, []⟩ it ot dr h0 h1 h2
  rw [runSip] at *
  rw [e]
  refine ⟨rfl, ?_, ?_, ?_, ?_⟩
  · simp [traceRequests]
  · simp
  · simp
  · simp

/-- C8 witness environment. -/
def c8env : SipEnv := fun n =>
  if n = 0 then .ok (.inboundTrunk ⟨"ST_in", "Twilio Inbound", ["+15550100"], []⟩)
  else if n = 1 then .ok (.outboundTrunk ⟨"ST_out", "Twilio Outbound", "example.pstn.twilio.com", ["+15550100"], "", ""⟩)
  else .ok (.dispatchRule ⟨"SDR_1", "Voice Agent Dispatch", ["ST_in"], "call-"⟩)

/-- C8 witness. -/
theorem c8_setup_provider_witness :
    (runSip (setup_twilio_trunk "+15550100" "example.pstn.twilio.com" none none) c8env).2
      = .ok (⟨"ST_in", "Twilio Inbound", ["+15550100"], []⟩,
             ⟨"ST_out", "Twilio Outbound", "example.pstn.twilio.com", ["+15550100"], "", ""⟩,
             ⟨"SDR_1", "Voice Agent Dispatch", ["ST_in"], "call-"⟩) :=
  (c8_setup_provider "+15550100" "example.pstn.twilio.com" none none c8env
    ⟨"ST_in", "Twilio Inbound", ["+15550100"], []⟩
    ⟨"ST_out", "Twilio Outbound", "example.pstn.twilio.com", ["+15550100"], "", ""⟩
    ⟨"SDR_1", "Voice Agent Dispatch", ["ST_in"], "call-"⟩
    (by rfl) (by rfl) (by rfl)).1

/-- C4 counterexample : when the control-plane call raises, the client is
never closed, because the source has no try/finally around `aclose`. -/
theorem c4_counterexample :
    SipEvent.closeClient ∉
      (runSip (create_inbound_trunk "Twilio Inbound" ["+15550100"] none)
        (fun _ => .error .connectionError)).1.trace := by
  decide

/-- C4 amended : on every operation whose control-plane calls return
normally, the freshly opened client is closed before the operation
completes. -/
theorem c4_client_closed_on_success :
    (∀ env its ots, env 0 = .ok (.inboundTrunks its) → env 1 = .ok (.outboundTrunks ots) →
      SipEvent.closeClient ∈ (runSip list_sip_trunks env).1.trace)
  ∧ (∀ env rs, env 0 = .ok (.dispatchRules rs) →
      SipEvent.closeClient ∈ (runSip list_dispatch_rules env).1.trace)
  ∧ (∀ env name numbers allowed t, env 0 = .ok (.inboundTrunk t) →
      SipEvent.closeClient ∈ (runSip (create_inbound_trunk name numbers allowed) env).1.trace)
  ∧ (∀ env name address numbers au ap t, env 0 = .ok (.outboundTrunk t) →
      SipEvent.closeClient ∈ (runSip (create_outbound_trunk name address numbers au ap) env).1.trace)
  ∧ (∀ env name pre tids t, env 0 = .ok (.dispatchRule t) →
      SipEvent.closeClient ∈ (runSip (create_dispatch_rule name pre tids) env).1.trace)
  ∧ (∀ env tid rep, env 0 = .ok rep →
      SipEvent.closeClient ∈ (runSip (delete_inbound_trunk tid) env).1.trace)
  ∧ (∀ env rid rep, env 0 = .ok rep →
      SipEvent.closeClient ∈ (runSip (delete_dispatch_rule rid) env).1.trace)
  ∧ (∀ env phone domain user pw it ot dr, env 0 = .ok (.inboundTrunk it) →
      env 1 = .ok (.outboundTrunk ot) → env 2 = .ok (.dispatchRule dr) →
      SipEvent.closeClient ∈ (runSip (setup_twilio_trunk phone domain user pw) env).1.trace) := by
  refine ⟨?_, ?_, ?_, ?_, ?_, ?_, ?_, ?_⟩
  · intro env its ots h0 h1
    rw [runSip, list_sip_trunks_eval env ⟨0, []⟩ its ots h0 h1]
    simp
  · intro env rs h0
    rw [runSip, list_dispatch_rules_eval env ⟨0, []⟩ rs h0]
    simp
  · intro env name numbers allowed t h0
    rw [runSip, create_inbound_trunk_eval name numbers allowed env ⟨0, []⟩ t h0]
    simp
  · intro env name address numbers au ap t h0
    rw [runSip, create_outbound_trunk_eval name address numbers au ap env ⟨0, []⟩ t h0]
    simp
  · intro env name pre tids t h0
    rw [runSip, create_dispatch_rule_eval name pre tids env ⟨0, []⟩ t h0]
    simp
  · intro env tid rep h0
    rw [runSip, delete_inbound_trunk_eval tid env ⟨0, []⟩ rep h0]
    simp
  · intro env rid rep h0
    rw [runSip, delete_dispatch_rule_eval rid env ⟨0, []⟩ rep h0]
    simp
  · intro env phone domain user pw it ot dr h0 h1 h2
    rw [runSip, setup_twilio_trunk_eval phone domain user pw env ⟨0, []⟩ it ot dr h0 h1 h2]
    simp

/-- C4 witness. -/
theorem c4_client_closed_on_success_witness :
    SipEvent.closeClient ∈
      (runSip (create_inbound_trunk "Twilio Inbound" ["+15550100"] none)
        (fun _ => .ok (.inboundTrunk ⟨"ST_in", "Twilio Inbound", ["+15550100"], []⟩))).1.trace :=
  c4_client_closed_on_success.2.2.1
    (fun _ => .ok (.inboundTrunk ⟨"ST_in", "Twilio Inbound", ["+15550100"], []⟩))
    "Twilio Inbound" ["+15550100"] none ⟨"ST_in", "Twilio Inbound", ["+15550100"], []⟩ rfl

/-!
Theorems for the claims about the Weather Query Service.
-/

/-- A well-formed Nominatim 200 response whose first result carries the
given coordinates and display name. -/
def geoOkResp (lat lon : ℚ) (dn : String) : HttpOutcome :=
  .response 200 (some (.jarr [.jobj
    [("lat", .jnum lat), ("lon", .jnum lon), ("display_name", .jstr dn)]]))

theorem geocode_location_eval (lat lon : ℚ) (dn : String) :
    geocode_location (geoOkResp lat lon dn) = .ok (some ⟨lat, lon, .jstr dn⟩) := by
  simp [geoOkResp, geocode_location, pyTruthy, pyGetIdx, pyGetKey, lookupField, pyFloat,
    Bind.bind, Except.bind, Functor.map, Except.map, List.reverse_cons, List.find?,
    Pure.pure, Except.pure]

/-- C2 counterexample : a geocoder connection failure, and a malformed
geocoder payload, both escape `get_weather` as exceptions instead of
producing a user-facing string. -/
theorem c2_counterexample :
    (get_weather "Paris" .connError (.response 200 (some (.jobj [])))
      = .error .connectionError)
    ∧ (get_weather "Paris" (.response 200 (some (.jarr [.jobj []])))
        (.response 200 (some (.jobj [])))
      = .error .keyError) := by
  constructor
  · rfl
  · rfl

/-- C2 amended : failure paths of `get_weather` that the source actually
absorbs resolve to the fixed apologies; connection errors and malformed
payloads propagate as exceptions. -/
theorem c2_apology_paths (location : String) :
    (∀ (st : Nat) (body : Option JVal) (wresp : HttpOutcome), st ≠ 200 →
      get_weather location (.response st body) wresp = .ok (apology_not_found location))
  ∧ (∀ wresp : HttpOutcome,
      get_weather location (.response 200 (some (.jarr []))) wresp
        = .ok (apology_not_found location))
  ∧ (∀ (lat lon : ℚ) (dn : String) (st : Nat) (body : Option JVal), st ≠ 200 →
      get_weather location (geoOkResp lat lon dn) (.response st body)
        = .ok (apology_no_weather location))
  ∧ (∀ (lat lon : ℚ) (dn : String),
      get_weather location (geoOkResp lat lon dn) (.response 200 (some (.jobj [])))
        = .ok (apology_no_weather location))
  ∧ (∀ wresp : HttpOutcome,
      get_weather location .connError wresp = .error .connectionError) := by
  refine ⟨?_, ?_, ?_, ?_, ?_⟩
  · intro st body wresp hst
    have hb : (st == 200) = false := by simpa using hst
    simp [get_weather, geocode_location, hb, Bind.bind, Except.bind, Pure.pure, Except.pure]
  · intro wresp
    simp [get_weather, geocode_location, pyTruthy, Bind.bind, Except.bind,
      Pure.pure, Except.pure]
  · intro lat lon dn st body hst
    have hb : (st == 200) = false := by simpa using hst
    simp [get_weather, geocode_location_eval, get_weather_data, hb,
      Bind.bind, Except.bind, Pure.pure, Except.pure]
  · intro lat lon dn
    simp [get_weather, geocode_location_eval, get_weather_data, pyTruthy,
      Bind.bind, Except.bind, Pure.pure, Except.pure]
  · intro wresp
    rfl

/-- C2 witness. -/
theorem c2_apology_paths_witness :
    get_weather "Paris" (.response 404 none) .connError
      = .ok (apology_not_found "Paris") :=
  (c2_apology_paths "Paris").1 404 none .connError (by decide)

/-- A well-formed Open-Meteo `current` block. -/
def mkCurrent (t f hu w c : ℚ) : JVal :=
  .jobj [("temperature_2m", .jnum t), ("apparent_temperature", .jnum f),
         ("relative_humidity_2m", .jnum hu), ("wind_speed_10m", .jnum w),
         ("weather_code", .jnum c)]

/-- A well-formed Open-Meteo `daily` block with a `time` key. -/
def mkDaily (ts : List JVal) (tmax tmin precip codes : List ℚ) : JVal :=
  .jobj [("time", .jarr ts),
         ("temperature_2m_max", .jarr (tmax.map .jnum)),
         ("temperature_2m_min", .jarr (tmin.map .jnum)),
         ("precipitation_probability_max", .jarr (precip.map .jnum)),
         ("weather_code", .jarr (codes.map .jnum))]

/-- A weather payload from its two blocks. -/
def mkPayload (cur daily : JVal) : JVal := .jobj [("current", cur), ("daily", daily)]

theorem forecastInfo_eval_full (ts : List JVal) (a0 a1 : ℚ) (arest : List ℚ)
    (b0 b1 : ℚ) (brest : List ℚ) (precip codes : List ℚ) :
    forecastInfo (mkDaily ts (a0 :: a1 :: arest) (b0 :: b1 :: brest) precip codes)
      = .ok (forecastClause (ratRender a1) (ratRender b1)
          (weatherCodeNumDescr (if 1 < codes.length then codes.getD 1 0 else 0) "unknown")
          (ratRender (if 1 < precip.length then precip.getD 1 0 else 0))) := by
  simp [forecastInfo, mkDaily, pyTruthy, pyIn, pyDictGet, lookupField, pyLen, pyGetIdx,
    weatherCodesGet, pyStrOf, Bind.bind, Except.bind, Pure.pure, Except.pure,
    List.reverse_cons, List.find?]
  by_cases hc : 1 < codes.length <;> by_cases hp : 1 < precip.length
  · obtain ⟨c1, hcg⟩ : ∃ x, codes[1]? = some x := ⟨_, List.getElem?_eq_getElem hc⟩
    obtain ⟨p1, hpg⟩ : ∃ x, precip[1]? = some x := ⟨_, List.getElem?_eq_getElem hp⟩
    have hcd : codes.getD 1 0 = c1 := by rw [List.getD_eq_getElem?_getD, hcg]; rfl
    have hpd : precip.getD 1 0 = p1 := by rw [List.getD_eq_getElem?_getD, hpg]; rfl
    simp [hc, hp, hcg, hpg, hcd, hpd, pyStrOf]
  · obtain ⟨c1, hcg⟩ : ∃ x, codes[1]? = some x := ⟨_, List.getElem?_eq_getElem hc⟩
    have hcd : codes.getD 1 0 = c1 := by rw [List.getD_eq_getElem?_getD, hcg]; rfl
    simp [hc, hp, hcg, hcd, pyStrOf]
  · obtain ⟨p1, hpg⟩ : ∃ x, precip[1]? = some x := ⟨_, List.getElem?_eq_getElem hp⟩
    have hpd : precip.getD 1 0 = p1 := by rw [List.getD_eq_getElem?_getD, hpg]; rfl
    simp [hc, hp, hpg, hpd, pyStrOf]
  · simp [hc, hp]

theorem forecastInfo_eval_short (ts : List JVal) (tmax tmin precip codes : List ℚ)
    (h : tmax.length < 2) :
    forecastInfo (mkDaily ts tmax tmin precip codes) = .ok "" := by
  simp [forecastInfo, mkDaily, pyTruthy, pyIn, pyDictGet, lookupField, pyLen,
    Bind.bind, Except.bind, Pure.pure, Except.pure, List.reverse_cons, List.find?,
    Nat.not_le.mpr h]

/-- An Open-Meteo `daily` block missing the `time` key. -/
def mkDailyNoTime (tmax tmin precip codes : List ℚ) : JVal :=
  .jobj [("temperature_2m_max", .jarr (tmax.map .jnum)),
         ("temperature_2m_min", .jarr (tmin.map .jnum)),
         ("precipitation_probability_max", .jarr (precip.map .jnum)),
         ("weather_code", .jarr (codes.map .jnum))]

theorem forecastInfo_eval_no_time (tmax tmin precip codes : List ℚ) :
    forecastInfo (mkDailyNoTime tmax tmin precip codes) = .ok "" := by
  simp [forecastInfo, mkDailyNoTime, pyTruthy, pyIn,
    Bind.bind, Except.bind, Pure.pure, Except.pure]

theorem forecastInfo_eval_short_min (ts : List JVal) (a0 a1 : ℚ) (arest : List ℚ)
    (precip codes : List ℚ) :
    forecastInfo (mkDaily ts (a0 :: a1 :: arest) [] precip codes) = .error .indexError := by
  simp [forecastInfo, mkDaily, pyTruthy, pyIn, pyDictGet, lookupField, pyLen, pyGetIdx,
    weatherCodesGet, pyStrOf, Bind.bind, Except.bind, Pure.pure, Except.pure,
    List.reverse_cons, List.find?]
  by_cases hc : 1 < codes.length <;> by_cases hp : 1 < precip.length
  · obtain ⟨c1, hcg⟩ : ∃ x, codes[1]? = some x := ⟨_, List.getElem?_eq_getElem hc⟩
    obtain ⟨p1, hpg⟩ : ∃ x, precip[1]? = some x := ⟨_, List.getElem?_eq_getElem hp⟩
    simp [hc, hp, hcg, hpg]
  · obtain ⟨c1, hcg⟩ : ∃ x, codes[1]? = some x := ⟨_, List.getElem?_eq_getElem hc⟩
    simp [hc, hp, hcg]
  · obtain ⟨p1, hpg⟩ : ∃ x, precip[1]? = some x := ⟨_, List.getElem?_eq_getElem hp⟩
    simp [hc, hp, hpg]
  · simp [hc, hp]

theorem get_weather_eval (location : String) (lat lon : ℚ) (dn : String)
    (t f hu w c : ℚ) (daily : JVal) (fc : String)
    (hfc : forecastInfo daily = .ok fc) :
    get_weather location (geoOkResp lat lon dn)
        (.response 200 (some (mkPayload (mkCurrent t f hu w c) daily)))
      = .ok (weatherSentence (pySplitFirst dn) (ratRender t) (ratRender f)
          (weatherCodeNumDescr c "unknown conditions") (ratRender hu) (ratRender w) fc) := by
  simp [get_weather, geocode_location_eval, get_weather_data, mkPayload, mkCurrent,
    pyTruthy, pyDictGet, lookupField, weatherCodesGet, pyStrOf, pySplitHeadComma, hfc,
    Bind.bind, Except.bind, Pure.pure, Except.pure, List.reverse_cons, List.find?]

theorem get_weather_eval_err (location : String) (lat lon : ℚ) (dn : String)
    (t f hu w c : ℚ) (daily : JVal) (er : PyErr)
    (hfc : forecastInfo daily = .error er) :
    get_weather location (geoOkResp lat lon dn)
        (.response 200 (some (mkPayload (mkCurrent t f hu w c) daily)))
      = .error er := by
  simp [get_weather, geocode_location_eval, get_weather_data, mkPayload, mkCurrent,
    pyTruthy, pyDictGet, lookupField, weatherCodesGet, pyStrOf, pySplitHeadComma, hfc,
    Bind.bind, Except.bind, Pure.pure, Except.pure, List.reverse_cons, List.find?]

/-- C3 counterexample : a payload whose daily block has two max-temperature
entries but no `time` key yields a sentence with no forecast clause, though
the claim requires one. -/
theorem c3_counterexample :
    (get_weather "Testville" (geoOkResp 10 20 "Testville, Region")
        (.response 200 (some (mkPayload (mkCurrent 15 14 50 5 1)
          (mkDailyNoTime [20, 25] [10, 12] [30, 40] [1, 61]))))
      = .ok (weatherSentence "Testville" "15" "14" "mainly clear" "50" "5" ""))
  ∧ (pyDictGet (mkDailyNoTime [20, 25] [10, 12] [30, 40] [1, 61])
      "temperature_2m_max" (.jarr [])
      = .ok (.jarr [.jnum 20, .jnum 25]))
  ∧ (strContains (weatherSentence "Testville" "15" "14" "mainly clear" "50" "5" "")
      (" Tomorrow" ++ sqc ++ "s forecast") = false) := by
  refine ⟨by rfl, by rfl, by rfl⟩

/-- C3 amended : over well-formed payloads, the forecast clause appears
exactly when the daily block is truthy, holds a `time` key and both
temperature arrays have at least two entries; it is built from index 1 of
each array with the stated defaults; a payload with two max temperatures
but fewer than two min temperatures raises IndexError instead. -/
theorem c3_forecast_clause (location : String) (lat lon : ℚ) (dn : String)
    (t f hu w c : ℚ) (ts : List JVal) :
    (∀ (a0 a1 : ℚ) (arest : List ℚ) (b0 b1 : ℚ) (brest precip codes : List ℚ),
      get_weather location (geoOkResp lat lon dn)
          (.response 200 (some (mkPayload (mkCurrent t f hu w c)
            (mkDaily ts (a0 :: a1 :: arest) (b0 :: b1 :: brest) precip codes))))
        = .ok (weatherSentence (pySplitFirst dn) (ratRender t) (ratRender f)
            (weatherCodeNumDescr c "unknown conditions") (ratRender hu) (ratRender w)
            (forecastClause (ratRender a1) (ratRender b1)
              (weatherCodeNumDescr (if 1 < codes.length then codes.getD 1 0 else 0) "unknown")
              (ratRender (if 1 < precip.length then precip.getD 1 0 else 0)))))
  ∧ (∀ (tmax tmin precip codes : List ℚ), tmax.length < 2 →
      get_weather location (geoOkResp lat lon dn)
          (.response 200 (some (mkPayload (mkCurrent t f hu w c)
            (mkDaily ts tmax tmin precip codes))))
        = .ok (weatherSentence (pySplitFirst dn) (ratRender t) (ratRender f)
            (weatherCodeNumDescr c "unknown conditions") (ratRender hu) (ratRender w) ""))
  ∧ (∀ (tmax tmin precip codes : List ℚ),
      get_weather location (geoOkResp lat lon dn)
          (.response 200 (some (mkPayload (mkCurrent t f hu w c)
            (mkDailyNoTime tmax tmin precip codes))))
        = .ok (weatherSentence (pySplitFirst dn) (ratRender t) (ratRender f)
            (weatherCodeNumDescr c "unknown conditions") (ratRender hu) (ratRender w) ""))
  ∧ (∀ (a0 a1 : ℚ) (arest precip codes : List ℚ),
      get_weather location (geoOkResp lat lon dn)
          (.response 200 (some (mkPayload (mkCurrent t f hu w c)
            (mkDaily ts (a0 :: a1 :: arest) [] precip codes))))
        = .error .indexError) := by
  refine ⟨?_, ?_, ?_, ?_⟩
  · intro a0 a1 arest b0 b1 brest precip codes
    exact get_weather_eval location lat lon dn t f hu w c _ _
      (forecastInfo_eval_full ts a0 a1 arest b0 b1 brest precip codes)
  · intro tmax tmin precip codes h
    exact get_weather_eval location lat lon dn t f hu w c _ _
      (forecastInfo_eval_short ts tmax tmin precip codes h)
  · intro tmax tmin precip codes
    exact get_weather_eval location lat lon dn t f hu w c _ _
      (forecastInfo_eval_no_time tmax tmin precip codes)
  · intro a0 a1 arest precip codes
    exact get_weather_eval_err location lat lon dn t f hu w c _ _
      (forecastInfo_eval_short_min ts a0 a1 arest precip codes)

/-- C3 witness. -/
theorem c3_forecast_clause_witness :
    get_weather "Testville" (geoOkResp 10 20 "Testville, Region")
        (.response 200 (some (mkPayload (mkCurrent 15 14 50 5 1)
          (mkDaily [.jstr "d0"] [20] [10] [] []))))
      = .ok (weatherSentence "Testville" "15" "14" "mainly clear" "50" "5" "") := by
  have h := (c3_forecast_clause "Testville" 10 20 "Testville, Region"
    15 14 50 5 1 [.jstr "d0"]).2.1 [20] [10] [] [] (by decide)
  simpa using h
